import Mathlib

/-!
Verification of the sandbox session manager specified in spec.md.

The repository's own files (examples/llm_sandbox_copy.py,
examples/llm_sandbox_min.py) are pure usage demonstrations: they call
SandboxSession, copy_to_runtime, copy_from_runtime, execute_command and run,
whose implementation lives outside the reviewed material.  Every component
below is therefore modelled from the specification's words (sections 3-7 of
spec.md): the Backend Driver capability set, the Copy Engine, the Execution
Engine, the Dependency Installer and the Session Orchestrator's scoped
lifecycle.
-/

namespace LLMSandbox

/-- A path (host-side or remote-side) as a list of components. -/
abbrev Path := List String

/-- File content as a list of bytes. -/
abbrev Bytes := List Nat

/-- A filesystem: an association list from paths to byte contents.
The first binding for a path wins, so inserting at the front overwrites. -/
abbrev FS := List (Path × Bytes)

/-- Look up the file stored at exactly path `p` (first binding wins). -/
def FS.lookup : FS → Path → Option Bytes
  | [], _ => none
  | (q, b) :: rest, p => if q = p then some b else FS.lookup rest p

/-- Write content `b` at path `p` (shadowing any previous binding). -/
def FS.insert (fs : FS) (p : Path) (b : Bytes) : FS := (p, b) :: fs

/-- Component-wise test that `pre` is a leading prefix of `q`. -/
def pathUnder : Path → Path → Bool
  | [], _ => true
  | _ :: _, [] => false
  | a :: as, b :: bs => a == b && pathUnder as bs

/-- All files strictly below directory path `d`, keyed by their path
relative to `d`. -/
def FS.entriesUnder (fs : FS) (d : Path) : List (Path × Bytes) :=
  fs.filterMap (fun e =>
    if pathUnder d e.1 && decide (d.length < e.1.length)
    then some (e.1.drop d.length, e.2) else none)

/-- Whether `d` exists as a directory: some file lies strictly below it. -/
def FS.existsDir (fs : FS) (d : Path) : Bool :=
  !(FS.entriesUnder fs d).isEmpty

/-- Walk the components of a remote destination path keeping track of depth
below the permitted root; report whether a `..` component ever climbs above
the root. -/
def escapeStep : List String → Nat → Bool
  | [], _ => false
  | c :: rest, d =>
    if c = ".." then
      match d with
      | 0 => true
      | Nat.succ d2 => escapeStep rest d2
    else if c = "." then escapeStep rest d
    else escapeStep rest (d + 1)

/-- Modelled from the spec: the copy boundary "must reject `..`-style
traversal outside permitted destination roots inside the remote
environment".  A destination escapes when its `..` components climb above
the permitted root. -/
def escapesRoot (p : Path) : Bool := escapeStep p 0

/-- Modelled from the spec: the error taxonomy of section 7. -/
inductive SdkError
  | provisionError
  | installError
  | sourceNotFound
  | remoteNotFound
  | executionError
  | stateViolation
  | pathTraversal
  deriving DecidableEq, Repr

/-- Observable interactions with the backend runtime.  Copy and execution
operations report the driver calls they performed, so "no remote
interaction" is a statement about this trace. -/
inductive DriverEvent
  | createEnv (hid : Nat)
  | installStep
  | workloadStep
  | stageIn (src dest : Path)
  | stageOut (src dest : Path)
  | cancelRemote (hid : Nat)
  | destroyEnv (hid : Nat)
  deriving DecidableEq, Repr

/-- Outcome of a host-to-runtime copy: the result, the remote filesystem
after the call, and the driver calls performed. -/
structure CopyOutcome where
  result : Except SdkError Unit
  remote : FS
  events : List DriverEvent

/-- Outcome of a runtime-to-host copy: the result, the host filesystem
after the call, and the driver calls performed. -/
structure CopyFromOutcome where
  result : Except SdkError Unit
  host : FS
  events : List DriverEvent

/-- Modelled from the spec: the Copy Engine's `copy_to_runtime` (section
4.2).  It first validates that the source exists on the host — raising
`SourceNotFoundError` before any remote interaction — then rejects
destinations escaping the permitted root, then stages a single file
directly, or recursively stages every entry of a directory preserving its
internal relative structure. -/
def Copy.toRuntime (host remote : FS) (src dest : Path) : CopyOutcome :=
  match FS.lookup host src with
  | some b =>
    if escapesRoot dest then
      { result := .error .pathTraversal, remote := remote, events := [] }
    else
      { result := .ok (), remote := FS.insert remote dest b,
        events := [DriverEvent.stageIn src dest] }
  | none =>
    if FS.existsDir host src then
      if escapesRoot dest then
        { result := .error .pathTraversal, remote := remote, events := [] }
      else
        { result := .ok ()
          remote := List.foldr (fun e r => FS.insert r (dest ++ e.1) e.2)
            remote (FS.entriesUnder host src)
          events := List.map (fun e => DriverEvent.stageIn (src ++ e.1) (dest ++ e.1))
            (FS.entriesUnder host src) }
    else
      { result := .error .sourceNotFound, remote := remote, events := [] }

/-- Modelled from the spec: the Copy Engine's `copy_from_runtime` (section
4.2), symmetric in the opposite direction; fails with `RemoteNotFoundError`
if the remote path does not exist. -/
def Copy.fromRuntime (host remote : FS) (src dest : Path) : CopyFromOutcome :=
  match FS.lookup remote src with
  | some b =>
    { result := .ok (), host := FS.insert host dest b,
      events := [DriverEvent.stageOut src dest] }
  | none =>
    if FS.existsDir remote src then
      { result := .ok ()
        host := List.foldr (fun e r => FS.insert r (dest ++ e.1) e.2)
          host (FS.entriesUnder remote src)
        events := List.map (fun e => DriverEvent.stageOut (src ++ e.1) (dest ++ e.1))
          (FS.entriesUnder remote src) }
    else
      { result := .error .remoteNotFound, host := host, events := [] }

theorem FS.lookup_insert_self (fs : FS) (p : Path) (b : Bytes) :
    FS.lookup (FS.insert fs p b) p = some b := by
  simp [FS.insert, FS.lookup]

theorem FS.lookup_append_right_none (a b : FS) (p : Path)
    (hb : FS.lookup b p = none) :
    FS.lookup (a ++ b) p = FS.lookup a p := by
  induction a with
  | nil => simpa [FS.lookup] using hb
  | cons e rest ih =>
    by_cases h : e.1 = p <;> simp [FS.lookup, h, ih]

theorem FS.lookup_append_left_none (a b : FS) (p : Path)
    (ha : FS.lookup a p = none) :
    FS.lookup (a ++ b) p = FS.lookup b p := by
  induction a with
  | nil => simp
  | cons e rest ih =>
    by_cases h : e.1 = p
    · simp [FS.lookup, h] at ha
    · simp [FS.lookup, h] at ha
      simp [FS.lookup, h, ih ha]

theorem FS.lookup_isSome_iff (fs : FS) (p : Path) :
    (FS.lookup fs p).isSome = true ↔ p ∈ List.map Prod.fst fs := by
  induction fs with
  | nil => simp [FS.lookup]
  | cons e rest ih =>
    by_cases h : e.1 = p
    · simp [FS.lookup, h]
    · simp [FS.lookup, h, ih]
      exact fun h2 => absurd h2.symm h

theorem foldr_insert_eq_append (entries : List (Path × Bytes)) (remote : FS)
    (dest : Path) :
    List.foldr (fun e r => FS.insert r (dest ++ e.1) e.2) remote entries =
      List.map (fun e => (dest ++ e.1, e.2)) entries ++ remote := by
  induction entries with
  | nil => rfl
  | cons e rest ih =>
    simp only [FS.insert] at ih ⊢
    simp [ih]

theorem pathUnder_append (dest rel : Path) :
    pathUnder dest (dest ++ rel) = true := by
  induction dest with
  | nil => rfl
  | cons a as ih => simp [pathUnder, ih]

theorem lookup_rerooted_none (entries : List (Path × Bytes)) (dest q : Path)
    (hq : pathUnder dest q = false) :
    FS.lookup (List.map (fun e => (dest ++ e.1, e.2)) entries) q = none := by
  induction entries with
  | nil => rfl
  | cons e rest ih =>
    have hne : dest ++ e.1 ≠ q := by
      intro h
      rw [← h] at hq
      rw [pathUnder_append] at hq
      exact Bool.noConfusion hq
    simp [FS.lookup, hne, ih]

/-- Modelled from the spec: the Session lifecycle states of section 3. -/
inductive LState
  | uninit
  | provisioning
  | ready
  | executing
  | tearingDown
  | closed
  | failed
  deriving DecidableEq, Repr

/-- Modelled from the spec: the Backend Handle, an opaque reference to the
live environment instance; it may be only partially initialized when
provisioning aborted partway. -/
structure Handle where
  id : Nat
  fullyInit : Bool
  deriving DecidableEq, Repr

/-- Modelled from the spec: a Session — identifier, lifecycle state, owned
Backend Handle, declared library list. -/
structure Session where
  sid : Nat
  state : LState
  handle : Option Handle
  libraries : List String
  deriving Repr

/-- A Session accepts Copy Operations and Execution Requests only in the
`Ready` or `Executing` state. -/
def Session.operable (s : Session) : Bool :=
  match s.state with
  | LState.ready => true
  | LState.executing => true
  | _ => false

/-- Modelled from the spec: the Dependency Installer's effect on the
lifecycle — a successful install yields `Ready`, "a failed install marks
the session `Failed` rather than `Ready`" (section 4.4). -/
def applyInstallOutcome (s : Session) (ok : Bool) : Session :=
  if ok then { s with state := LState.ready } else { s with state := LState.failed }

/-- Backend driver state: the set of live environment instances. -/
structure DriverState where
  live : List Nat
  deriving Repr

/-- Modelled from the spec: an Execution Request's command together with
its behaviour inside the environment (exit code, running time, captured
streams). -/
structure Command where
  exitCode : Int
  duration : Nat
  output : String
  errOutput : String
  deriving Repr

/-- Modelled from the spec: an Execution Result — exit code, captured
stdout, captured stderr, elapsed time, and the `TimedOut` flag that is
distinct from a genuine non-zero exit. -/
structure ExecutionResult where
  exitCode : Int
  stdout : String
  stderr : String
  elapsed : Nat
  timedOut : Bool
  deriving Repr

/-- Outcome of an execution request: the result and the driver calls
performed. -/
structure ExecOutcome where
  result : Except SdkError ExecutionResult
  events : List DriverEvent

/-- The result of a command that ran to completion: its own exit code is a
normal result field, never an error. -/
def finishedResult (cmd : Command) : ExecutionResult :=
  { exitCode := cmd.exitCode, stdout := cmd.output, stderr := cmd.errOutput,
    elapsed := cmd.duration, timedOut := false }

/-- The result of a command cancelled at its timeout bound: marked by the
`TimedOut` flag, elapsed time capped at the bound.  The exit code 124 is
conventional; the flag, not the code, marks expiry. -/
def timedOutResult (t : Nat) : ExecutionResult :=
  { exitCode := 124, stdout := "", stderr := "", elapsed := t, timedOut := true }

/-- Modelled from the spec: the Backend Driver's `exec` (section 4.1).
Fails with `ExecutionError` only on runtime-level failure (handle gone); a
command exceeding its timeout is cancelled and reported as a timed-out
result rather than an error. -/
def Driver.exec (st : DriverState) (h : Handle) (cmd : Command)
    (timeout : Option Nat) : ExecOutcome :=
  if h.id ∈ st.live then
    match timeout with
    | none => { result := .ok (finishedResult cmd), events := [] }
    | some t =>
      if cmd.duration ≤ t then
        { result := .ok (finishedResult cmd), events := [] }
      else
        { result := .ok (timedOutResult t),
          events := [DriverEvent.cancelRemote h.id] }
  else { result := .error .executionError, events := [] }

/-- Modelled from the spec: the Backend Driver's `destroy` (section 4.1) —
releases the environment; a handle that no longer exists is a best-effort
no-op, never an error, and a partially initialized handle is handled the
same way as a full one. -/
def Driver.destroy (st : DriverState) (h : Handle) : Except SdkError DriverState :=
  if h.id ∈ st.live then
    Except.ok { st with live := st.live.filter (fun n => n != h.id) }
  else Except.ok st

/-- Modelled from the spec: the orchestrator-level `execute` (section 4.3)
— checks the session state, then delegates to the Backend Driver's `exec`
with the configured timeout. -/
def Session.execute (st : DriverState) (s : Session) (cmd : Command)
    (timeout : Option Nat) : ExecOutcome :=
  if Session.operable s then
    match s.handle with
    | some h => Driver.exec st h cmd timeout
    | none => { result := .error .executionError, events := [] }
  else { result := .error .stateViolation, events := [] }

/-- Modelled from the spec: orchestrator-level `copy_to_runtime` — a Copy
Operation against a Session not in `Ready` or `Executing` state is a state
violation, reported before any remote side effect. -/
def Session.copyToRuntime (s : Session) (host remote : FS)
    (src dest : Path) : CopyOutcome :=
  if Session.operable s then Copy.toRuntime host remote src dest
  else { result := .error .stateViolation, remote := remote, events := [] }

/-- Modelled from the spec: orchestrator-level `copy_from_runtime`,
with the same state check. -/
def Session.copyFromRuntime (s : Session) (host remote : FS)
    (src dest : Path) : CopyFromOutcome :=
  if Session.operable s then Copy.fromRuntime host remote src dest
  else { result := .error .stateViolation, host := host, events := [] }

/-- Modelled from the spec: the Execution Engine runs scripts with the
environment's pinned interpreter (section 4.3); a source-code string
becomes a command whose captured output is the text the program prints. -/
def interpretScript (progOut : String → String) (code : String)
    (dur : Nat) : Command :=
  { exitCode := 0, duration := dur, output := progOut code, errOutput := "" }

/-- Modelled from the spec: `run`, the session operation taking a
source-code string (exercised by examples/llm_sandbox_min.py); it executes
the script through the Execution Engine and returns its Execution Result. -/
def Session.run (st : DriverState) (s : Session) (progOut : String → String)
    (code : String) (dur : Nat) : ExecOutcome :=
  Session.execute st s (interpretScript progOut code dur) none

/-- How far provisioning of a session got before the workload phase. -/
inductive ProvPhase
  | fullOk
  | createAborted
  | installFailed
  deriving DecidableEq, Repr

/-- How the workload phase of a session scope ended. -/
inductive WorkloadOutcome
  | normal
  | raises
  | cancelled
  deriving DecidableEq, Repr

/-- Modelled from the spec: the driver calls made by the body of a session
scope — provisioning, dependency installation, then the workload; an abort
partway through provisioning, a raised error, or external cancellation cuts
the body short at that point. -/
def scopeBody (hid : Nat) (p : ProvPhase) (w : WorkloadOutcome) :
    List DriverEvent :=
  DriverEvent.createEnv hid ::
    match p with
    | ProvPhase.createAborted => []
    | ProvPhase.installFailed => [DriverEvent.installStep]
    | ProvPhase.fullOk =>
      DriverEvent.installStep ::
        match w with
        | WorkloadOutcome.normal => [DriverEvent.workloadStep]
        | WorkloadOutcome.raises => [DriverEvent.workloadStep]
        | WorkloadOutcome.cancelled => []

/-- Modelled from the spec: the Session Orchestrator's scoped acquisition
(section 4.5) — whatever the body did and however it exited, teardown runs
`destroy` on the Backend Handle as the scope exits. -/
def runScope (hid : Nat) (p : ProvPhase) (w : WorkloadOutcome) :
    List DriverEvent :=
  scopeBody hid p w ++ [DriverEvent.destroyEnv hid]

/-- Effect of one driver event on the set of live environments. -/
def applyEvent (live : List Nat) : DriverEvent → List Nat
  | DriverEvent.createEnv hid => hid :: live
  | DriverEvent.destroyEnv hid => live.filter (fun n => n != hid)
  | _ => live

/-- Replay a trace of driver events over the set of live environments. -/
def runEvents (live : List Nat) (evs : List DriverEvent) : List Nat :=
  evs.foldl applyEvent live

/-- Count the `destroy` calls in a trace of driver events. -/
def countDestroys (evs : List DriverEvent) : Nat :=
  evs.countP (fun e => match e with
    | DriverEvent.destroyEnv _ => true
    | _ => false)

/-! Concrete fixtures mirroring the example scripts, used by the witness
theorems below. -/

/-- A provisioned session as the demo scripts obtain one. -/
def demoSession : Session :=
  { sid := 1, state := LState.ready, handle := some { id := 7, fullyInit := true },
    libraries := ["pandas", "matplotlib"] }

/-- A driver state in which the demo session's environment is live. -/
def demoDriver : DriverState := { live := [7] }

/-- A session whose dependency installation failed. -/
def demoFailedSession : Session :=
  { sid := 2, state := LState.failed, handle := some { id := 8, fullyInit := false },
    libraries := ["pandas"] }

/-- A command that itself exits with status 7. -/
def exitSeven : Command :=
  { exitCode := 7, duration := 1, output := "", errOutput := "" }

/-- A command that would run for 10 seconds. -/
def sleepTen : Command :=
  { exitCode := 0, duration := 10, output := "", errOutput := "" }

/-- A host directory tree holding a/x.txt and a/b/y.txt. -/
def demoTree : FS :=
  [(["a", "x.txt"], [10]), (["a", "b", "y.txt"], [20])]

/-- Claim C1: teardown (the destroy call on the Backend Handle) executes
exactly once when the owning scope exits, on every exit path — normal
return, an exception partway through the workload, or external
cancellation — even if provisioning only partially completed; and after
scope exit the Backend Handle is destroyed (no environment is left live). -/
theorem teardown_runs_exactly_once (hid : Nat) (p : ProvPhase)
    (w : WorkloadOutcome) :
    countDestroys (runScope hid p w) = 1 ∧
      runEvents [] (runScope hid p w) = [] := by
  cases p <;> cases w <;>
    simp [runScope, scopeBody, countDestroys, runEvents, applyEvent]

/-- Claim C2: for a host path that exists neither as a file nor as a
directory, copy_to_runtime reports SourceNotFoundError, performs no driver
call (no remote interaction), and leaves the remote filesystem unchanged. -/
theorem copy_missing_source_rejected_before_remote (s : Session)
    (host remote : FS) (p dest : Path) (hs : Session.operable s = true)
    (h1 : FS.lookup host p = none) (h2 : FS.existsDir host p = false) :
    (Session.copyToRuntime s host remote p dest).result =
        Except.error SdkError.sourceNotFound ∧
      (Session.copyToRuntime s host remote p dest).remote = remote ∧
      (Session.copyToRuntime s host remote p dest).events = [] := by
  refine ⟨?_, ?_, ?_⟩ <;>
    simp [Session.copyToRuntime, hs, Copy.toRuntime, h1, h2]

theorem copy_missing_source_rejected_before_remote_case :
    FS.lookup ([] : FS) ["nonexistent", "file.txt"] = none ∧
      (Session.copyToRuntime demoSession [] [] ["nonexistent", "file.txt"]
          ["sandbox", "dummy.txt"]).result =
        Except.error SdkError.sourceNotFound ∧
      (Session.copyToRuntime demoSession [] [] ["nonexistent", "file.txt"]
          ["sandbox", "dummy.txt"]).events = [] :=
  ⟨rfl,
    (copy_missing_source_rejected_before_remote demoSession [] []
        ["nonexistent", "file.txt"] ["sandbox", "dummy.txt"] rfl rfl rfl).1,
    (copy_missing_source_rejected_before_remote demoSession [] []
        ["nonexistent", "file.txt"] ["sandbox", "dummy.txt"] rfl rfl rfl).2.2⟩

/-- Claim C3: a Session whose lifecycle state is neither Ready nor
Executing rejects every execution request and every copy operation with
StateViolationError, and a failed install marks the session Failed (hence
inoperable), never Ready. -/
theorem invalid_state_rejects_operations (s : Session)
    (h1 : s.state ≠ LState.ready) (h2 : s.state ≠ LState.executing) :
    (∀ st cmd t, (Session.execute st s cmd t).result =
        Except.error SdkError.stateViolation) ∧
      (∀ host remote src dest, (Session.copyToRuntime s host remote src dest).result =
        Except.error SdkError.stateViolation) ∧
      (∀ host remote src dest, (Session.copyFromRuntime s host remote src dest).result =
        Except.error SdkError.stateViolation) ∧
      (∀ s2 : Session, (applyInstallOutcome s2 false).state = LState.failed ∧
        Session.operable (applyInstallOutcome s2 false) = false) := by
  have hop : Session.operable s = false := by
    unfold Session.operable
    cases hs : s.state
    all_goals first
      | rfl
      | exact absurd hs h1
      | exact absurd hs h2
  refine ⟨?_, ?_, ?_, ?_⟩
  · intro st cmd t
    simp [Session.execute, hop]
  · intro host remote src dest
    simp [Session.copyToRuntime, hop]
  · intro host remote src dest
    simp [Session.copyFromRuntime, hop]
  · intro s2
    exact ⟨by simp [applyInstallOutcome], by simp [applyInstallOutcome, Session.operable]⟩

theorem invalid_state_rejects_operations_case :
    (Session.execute demoDriver demoFailedSession exitSeven none).result =
        Except.error SdkError.stateViolation ∧
      (Session.copyToRuntime demoFailedSession demoTree [] ["a"] ["r"]).result =
        Except.error SdkError.stateViolation :=
  ⟨(invalid_state_rejects_operations demoFailedSession (by decide) (by decide)).1
      demoDriver exitSeven none,
    (invalid_state_rejects_operations demoFailedSession (by decide) (by decide)).2.1
      demoTree [] ["a"] ["r"]⟩

/-- Claim C4: copying an existing host file into the runtime and copying
it back out produces a file with byte-identical content. -/
theorem copy_round_trip_byte_identical (s : Session) (host remote : FS)
    (f dest f2 : Path) (b : Bytes) (hs : Session.operable s = true)
    (hf : FS.lookup host f = some b) (hd : escapesRoot dest = false) :
    (Session.copyToRuntime s host remote f dest).result = Except.ok () ∧
      (Session.copyFromRuntime s host
          (Session.copyToRuntime s host remote f dest).remote dest f2).result =
        Except.ok () ∧
      FS.lookup (Session.copyFromRuntime s host
          (Session.copyToRuntime s host remote f dest).remote dest f2).host f2 =
        FS.lookup host f := by
  refine ⟨?_, ?_, ?_⟩ <;>
    simp [Session.copyToRuntime, Session.copyFromRuntime, hs, Copy.toRuntime,
      Copy.fromRuntime, hf, hd, FS.insert, FS.lookup]

theorem copy_round_trip_byte_identical_case :
    FS.lookup [(["data", "temp.csv"], [9, 9, 9])] ["data", "temp.csv"] =
        some [9, 9, 9] ∧
      FS.lookup (Session.copyFromRuntime demoSession
          [(["data", "temp.csv"], [9, 9, 9])]
          (Session.copyToRuntime demoSession [(["data", "temp.csv"], [9, 9, 9])]
              [] ["data", "temp.csv"] ["sandbox", "temp.csv"]).remote
          ["sandbox", "temp.csv"] ["data", "back.csv"]).host ["data", "back.csv"] =
        FS.lookup [(["data", "temp.csv"], [9, 9, 9])] ["data", "temp.csv"] :=
  ⟨rfl,
    (copy_round_trip_byte_identical demoSession [(["data", "temp.csv"], [9, 9, 9])]
        [] ["data", "temp.csv"] ["sandbox", "temp.csv"] ["data", "back.csv"]
        [9, 9, 9] rfl rfl rfl).2.2⟩

/-- Claim C5: executing a command that itself exits non-zero returns an
ExecutionResult carrying that exit code and does not raise; with a live
handle no timeout choice makes exec raise, and exec never errors on a live
handle — ExecutionError is reserved for runtime-level failure. -/
theorem nonzero_exit_is_normal_result (st : DriverState) (s : Session)
    (h : Handle) (cmd : Command) (hs : Session.operable s = true)
    (hh : s.handle = some h) (hl : h.id ∈ st.live) :
    (Session.execute st s cmd none).result = Except.ok (finishedResult cmd) ∧
      (finishedResult cmd).exitCode = cmd.exitCode ∧
      (∀ t, ∃ r, (Session.execute st s cmd t).result = Except.ok r) ∧
      (∀ st2 h2 cmd2 t2, h2.id ∈ st2.live →
        ∃ r, (Driver.exec st2 h2 cmd2 t2).result = Except.ok r) := by
  refine ⟨?_, rfl, ?_, ?_⟩
  · simp [Session.execute, hs, hh, Driver.exec, hl]
  · intro t
    cases t with
    | none =>
      exact ⟨finishedResult cmd, by simp [Session.execute, hs, hh, Driver.exec, hl]⟩
    | some t0 =>
      by_cases hdur : cmd.duration ≤ t0
      · exact ⟨finishedResult cmd,
          by simp [Session.execute, hs, hh, Driver.exec, hl, hdur]⟩
      · exact ⟨timedOutResult t0,
          by simp [Session.execute, hs, hh, Driver.exec, hl, hdur]⟩
  · intro st2 h2 cmd2 t2 hl2
    cases t2 with
    | none => exact ⟨finishedResult cmd2, by simp [Driver.exec, hl2]⟩
    | some t0 =>
      by_cases hdur : cmd2.duration ≤ t0
      · exact ⟨finishedResult cmd2, by simp [Driver.exec, hl2, hdur]⟩
      · exact ⟨timedOutResult t0, by simp [Driver.exec, hl2, hdur]⟩

theorem nonzero_exit_is_normal_result_case :
    (Session.execute demoDriver demoSession exitSeven none).result =
        Except.ok (finishedResult exitSeven) ∧
      (finishedResult exitSeven).exitCode = 7 :=
  ⟨(nonzero_exit_is_normal_result demoDriver demoSession
        { id := 7, fullyInit := true } exitSeven rfl rfl (by decide)).1,
    rfl⟩

/-- Claim C6: when a command exceeds its timeout, execute returns (does
not raise) a result whose TimedOut flag is set — a flag a normally
finished command never carries — with elapsed time equal to the timeout
bound rather than the command's full duration, after cancelling the remote
process. -/
theorem timeout_returns_timed_out_result (st : DriverState) (s : Session)
    (h : Handle) (cmd : Command) (t : Nat) (hs : Session.operable s = true)
    (hh : s.handle = some h) (hl : h.id ∈ st.live) (ht : t < cmd.duration) :
    (Session.execute st s cmd (some t)).result = Except.ok (timedOutResult t) ∧
      (timedOutResult t).timedOut = true ∧
      (timedOutResult t).elapsed = t ∧
      t < cmd.duration ∧
      (Session.execute st s cmd (some t)).events = [DriverEvent.cancelRemote h.id] ∧
      (finishedResult cmd).timedOut = false := by
  have hdur : ¬ cmd.duration ≤ t := by omega
  refine ⟨?_, rfl, rfl, ht, ?_, rfl⟩ <;>
    simp [Session.execute, hs, hh, Driver.exec, hl, hdur]

theorem timeout_returns_timed_out_result_case :
    (Session.execute demoDriver demoSession sleepTen (some 1)).result =
        Except.ok (timedOutResult 1) ∧
      (timedOutResult 1).elapsed = 1 :=
  ⟨(timeout_returns_timed_out_result demoDriver demoSession
        { id := 7, fullyInit := true } sleepTen 1 rfl rfl (by decide) (by decide)).1,
    rfl⟩

/-- Claim C7: copying an existing host directory stages every entry
recursively and preserves the internal relative structure exactly: into a
fresh remote root, a path below the destination exists afterwards exactly
when it is the destination extended by the relative path of a source
entry, and paths outside the destination are untouched. -/
theorem directory_copy_mirrors_tree (s : Session) (host remote : FS)
    (src dest : Path) (hs : Session.operable s = true)
    (hfile : FS.lookup host src = none)
    (hdir : FS.existsDir host src = true)
    (hesc : escapesRoot dest = false)
    (hfresh : ∀ q : Path, pathUnder dest q = true → FS.lookup remote q = none) :
    (Session.copyToRuntime s host remote src dest).result = Except.ok () ∧
      (∀ q : Path, pathUnder dest q = true →
        ((FS.lookup (Session.copyToRuntime s host remote src dest).remote q).isSome =
            true ↔
          ∃ rel, rel ∈ List.map Prod.fst (FS.entriesUnder host src) ∧
            q = dest ++ rel)) ∧
      (∀ q : Path, pathUnder dest q = false →
        FS.lookup (Session.copyToRuntime s host remote src dest).remote q =
          FS.lookup remote q) := by
  have hrem : (Session.copyToRuntime s host remote src dest).remote =
      List.map (fun e => (dest ++ e.1, e.2)) (FS.entriesUnder host src) ++ remote := by
    simp [Session.copyToRuntime, hs, Copy.toRuntime, hfile, hdir, hesc,
      foldr_insert_eq_append]
  refine ⟨?_, ?_, ?_⟩
  · simp [Session.copyToRuntime, hs, Copy.toRuntime, hfile, hdir, hesc]
  · intro q hq
    rw [hrem, FS.lookup_append_right_none _ _ _ (hfresh q hq), FS.lookup_isSome_iff]
    simp only [List.map_map, List.mem_map, Function.comp]
    constructor
    · rintro ⟨e, he, rfl⟩
      exact ⟨e.1, ⟨e, he, rfl⟩, rfl⟩
    · rintro ⟨rel, ⟨e, he, h1⟩, h2⟩
      subst h1
      subst h2
      exact ⟨e, he, rfl⟩
  · intro q hq
    rw [hrem, FS.lookup_append_left_none _ _ _ (lookup_rerooted_none _ _ _ hq)]

theorem directory_copy_mirrors_tree_case :
    FS.lookup demoTree ["a"] = none ∧
      FS.existsDir demoTree ["a"] = true ∧
      (Session.copyToRuntime demoSession demoTree [] ["a"] ["r"]).result =
        Except.ok () :=
  ⟨rfl, rfl,
    (directory_copy_mirrors_tree demoSession demoTree [] ["a"] ["r"] rfl rfl rfl
        rfl (fun _ _ => rfl)).1⟩

/-- Claim C8: destroy is idempotent best-effort cleanup — it always
returns ok (never raises, including on a handle that no longer exists), a
second destroy of an already destroyed handle is a no-op, a destroy of an
absent handle returns the state unchanged, and a partially initialized
handle is treated just like a fully initialized one. -/
theorem destroy_idempotent_never_raises (st : DriverState) (h : Handle) :
    (∃ st2, Driver.destroy st h = Except.ok st2) ∧
      (∀ st2, Driver.destroy st h = Except.ok st2 →
        Driver.destroy st2 h = Except.ok st2) ∧
      (∀ st3 : DriverState, h.id ∉ st3.live →
        Driver.destroy st3 h = Except.ok st3) ∧
      (∀ b1 b2 : Bool, Driver.destroy st { id := h.id, fullyInit := b1 } =
        Driver.destroy st { id := h.id, fullyInit := b2 }) := by
  have habsent : ∀ st3 : DriverState, h.id ∉ st3.live →
      Driver.destroy st3 h = Except.ok st3 := by
    intro st3 hm
    simp [Driver.destroy, hm]
  refine ⟨?_, ?_, habsent, fun b1 b2 => rfl⟩
  · by_cases hm : h.id ∈ st.live
    · exact ⟨{ st with live := st.live.filter (fun n => n != h.id) },
        by simp [Driver.destroy, hm]⟩
    · exact ⟨st, habsent st hm⟩
  · intro st2 heq
    by_cases hm : h.id ∈ st.live
    · simp only [Driver.destroy, if_pos hm] at heq
      cases heq
      apply habsent
      simp
    · rw [habsent st hm] at heq
      cases heq
      exact habsent st hm

theorem destroy_idempotent_never_raises_case :
    Driver.destroy { live := [] } { id := 7, fullyInit := false } =
      Except.ok { live := [] } :=
  (destroy_idempotent_never_raises { live := [] }
      { id := 7, fullyInit := false }).2.2.1 { live := [] } (by decide)

/-- Claim C9: a remote destination whose path components climb above the
permitted destination root with a `..` step is rejected: the copy
operation fails with an error, performs no driver call, and leaves the
remote filesystem unchanged — whatever the session state and whatever the
source. -/
theorem traversal_escaping_destination_rejected (s : Session)
    (host remote : FS) (src dest : Path) (hesc : escapesRoot dest = true) :
    (∃ e, (Session.copyToRuntime s host remote src dest).result =
        Except.error e) ∧
      (Session.copyToRuntime s host remote src dest).remote = remote ∧
      (Session.copyToRuntime s host remote src dest).events = [] := by
  by_cases hop : Session.operable s = true
  · cases hsrc : FS.lookup host src with
    | some b =>
      refine ⟨⟨SdkError.pathTraversal, ?_⟩, ?_, ?_⟩ <;>
        simp [Session.copyToRuntime, hop, Copy.toRuntime, hsrc, hesc]
    | none =>
      by_cases hdir : FS.existsDir host src = true
      · refine ⟨⟨SdkError.pathTraversal, ?_⟩, ?_, ?_⟩ <;>
          simp [Session.copyToRuntime, hop, Copy.toRuntime, hsrc, hdir, hesc]
      · refine ⟨⟨SdkError.sourceNotFound, ?_⟩, ?_, ?_⟩ <;>
          simp [Session.copyToRuntime, hop, Copy.toRuntime, hsrc, hdir, hesc]
  · refine ⟨⟨SdkError.stateViolation, ?_⟩, ?_, ?_⟩ <;>
      simp [Session.copyToRuntime, hop]

theorem traversal_escaping_destination_rejected_case :
    escapesRoot ["sandbox", "..", "..", "etc", "passwd"] = true ∧
      (Session.copyToRuntime demoSession demoTree [] ["a", "x.txt"]
          ["sandbox", "..", "..", "etc", "passwd"]).events = [] :=
  ⟨rfl,
    (traversal_escaping_destination_rejected demoSession demoTree []
        ["a", "x.txt"] ["sandbox", "..", "..", "etc", "passwd"] rfl).2.2⟩

/-- Claim C10: the run operation takes a source-code string and, within an
open session backed by a live handle, returns an ExecutionResult whose
stdout field carries the text the executed program prints. -/
theorem run_captures_program_stdout (st : DriverState) (s : Session)
    (h : Handle) (progOut : String → String) (code : String) (dur : Nat)
    (hs : Session.operable s = true) (hh : s.handle = some h)
    (hl : h.id ∈ st.live) :
    (Session.run st s progOut code dur).result =
        Except.ok (finishedResult (interpretScript progOut code dur)) ∧
      (finishedResult (interpretScript progOut code dur)).stdout = progOut code := by
  refine ⟨?_, rfl⟩
  simp [Session.run, Session.execute, hs, hh, Driver.exec, hl]

theorem run_captures_program_stdout_case :
    (Session.run demoDriver demoSession
          (fun _ => "Hello from LLM Sandbox!") "print(...)" 1).result =
        Except.ok (finishedResult (interpretScript
          (fun _ => "Hello from LLM Sandbox!") "print(...)" 1)) ∧
      (finishedResult (interpretScript
          (fun _ => "Hello from LLM Sandbox!") "print(...)" 1)).stdout =
        "Hello from LLM Sandbox!" :=
  run_captures_program_stdout demoDriver demoSession
    { id := 7, fullyInit := true } (fun _ => "Hello from LLM Sandbox!")
    "print(...)" 1 rfl rfl (by decide)

end LLMSandbox
